import Mathlib

/-!
Verification of the ccmonitor web client against its specification.

The development shallowly embeds the parts of the TypeScript source that the
spec's testable properties talk about:

* the derived-field calculations performed in the `onSubmit` handlers of
  `AddCreditCard.tsx` and `EditCreditCard.tsx` (`bill_cycle_days`,
  `available_credit`);
* the zod validation schemas `creditCardFormSchema` and `reminderFormSchema`
  (`types/schemas.ts`);
* the remote data client of `services/supabase.ts` (one function per
  entity/operation), modelled as functions from the ambient session state to
  either a thrown error or the backend request they issue;
* the multi-step storage operations `uploadBillStatement` and
  `deleteBillStatement`, modelled as trace-producing functions over an
  environment that fixes the backend's replies;
* the local list-patching handlers `handleDeleteCard` (`CreditCards.tsx`)
  and `handleToggleStatus` (`PaymentReminders.tsx`);
* the module initialisation of the supabase client (env-var check).

JavaScript numbers are modelled as rationals (the arithmetic the code
performs on them is exact at this granularity), strings as Lean `String`s,
and `undefined` as `Option.none`.
-/

namespace CCMonitor

/-! ## Calendar dates and JS date arithmetic

`new Date("YYYY-MM-DD")` parses to UTC midnight of the proleptic-Gregorian
calendar date, i.e. its `getTime()` is `86400000 *` the date's epoch-day
number.  `daysFromCivil` is the standard civil-from-days inverse (floor
divisions, positive divisors). -/

/-- A calendar date as entered through the form's date pickers. -/
structure CalDate where
  year : Int
  month : Nat
  day : Nat
deriving DecidableEq, Repr

/-- Epoch-day number (days since 1970-01-01) of a proleptic-Gregorian date;
this is what `new Date("YYYY-MM-DD").getTime() / 86400000` computes. -/
def daysFromCivil (dt : CalDate) : Int :=
  let y : Int := if dt.month ≤ 2 then dt.year - 1 else dt.year
  let era : Int := y / 400
  let yoe : Nat := (y - era * 400).toNat
  let mp : Nat := (dt.month + 9) % 12
  let doy : Nat := (153 * mp + 2) / 5 + dt.day - 1
  let doe : Nat := yoe * 365 + yoe / 4 - yoe / 100 + doy
  era * 146097 + (doe : Int) - 719468

/-- JS `Math.round`: round half toward positive infinity. -/
def jsRound (q : ℚ) : Int := Int.floor (q + 1 / 2)

/-- Milliseconds of `new Date(s).getTime()` for a `YYYY-MM-DD` string. -/
def jsDateMs (dt : CalDate) : Int := 86400000 * daysFromCivil dt

/-- The bill-cycle computation of both `onSubmit` handlers:
`Math.round((dueDate.getTime() - billDate.getTime()) / (1000 * 60 * 60 * 24))`. -/
def billCycleDaysCalc (bill due : CalDate) : Int :=
  jsRound (((jsDateMs due - jsDateMs bill : Int) : ℚ) / 86400000)

/-! ## Form values and the `onSubmit` derived-field calculations -/

/-- The validated credit-card form values handed to `onSubmit`
(`z.infer<typeof creditCardFormSchema>`).  Optional date fields are `none`
when absent or the empty string (both falsy in the source's
`if (values.last_bill_date && values.last_due_date)` test), otherwise the
parse of the validated `YYYY-MM-DD` string. -/
structure CardFormValues where
  card_name : String
  last_four_digits : String
  card_network : String
  bank_name : String
  last_bill_date : Option CalDate
  last_due_date : Option CalDate
  credit_limit : ℚ
  current_balance : ℚ
  joining_date : Option CalDate
  expiry_date : Option CalDate
  joining_fees : ℚ
  annual_fees : ℚ
  color : String
deriving DecidableEq, Repr

/-- The record sent to the backend by the card forms: the form values plus
the two derived fields. -/
structure CardData extends CardFormValues where
  bill_cycle_days : Option Int
  available_credit : ℚ
deriving DecidableEq, Repr

/-- `onSubmit` of `AddCreditCard.tsx`: `bill_cycle_days` starts as `null`
and is only computed when both dates are truthy; `available_credit` is
`credit_limit - current_balance`. -/
def addCreditCardOnSubmit (values : CardFormValues) : CardData :=
  { toCardFormValues := values
    bill_cycle_days :=
      match values.last_bill_date, values.last_due_date with
      | some b, some d => some (billCycleDaysCalc b d)
      | _, _ => none
    available_credit := values.credit_limit - values.current_balance }

/-- `onSubmit` of `EditCreditCard.tsx`: `bill_cycle_days` starts as
`creditCard.bill_cycle_days` (the previously stored value) and is only
overwritten when both dates are truthy. -/
def editCreditCardOnSubmit (prevBillCycleDays : Option Int)
    (values : CardFormValues) : CardData :=
  { toCardFormValues := values
    bill_cycle_days :=
      match values.last_bill_date, values.last_due_date with
      | some b, some d => some (billCycleDaysCalc b d)
      | _, _ => prevBillCycleDays
    available_credit := values.credit_limit - values.current_balance }

/-! ## The remote data client (`services/supabase.ts`)

Each operation is modelled as a function of the ambient session state
(`Option String` — the authenticated user id, or `none`) returning either a
thrown error or the backend request it issues.  Operations whose source does
not call `supabase.auth.getUser()` ignore the session argument, mirroring
the absence of any check.  Request payloads (the row data) are elided; the
requests record the table, row filter and session scoping, which is what the
claims are about. -/

/-- A single request issued to the hosted backend. -/
inductive DbRequest where
  | insert (table : String) (userId : String)
  | selectAll (table : String) (userId : String)
  | selectById (table : String) (id : String) (userId : String)
  | selectByCard (table : String) (creditCardId : String) (userId : String)
  | update (table : String) (id : String)
  | delete (table : String) (id : String)
  | createSignedUrl (path : String) (expiresIn : Nat)
deriving DecidableEq, Repr

/-- Outcome of invoking a data-client function: a thrown error before any
request, or the request it issues. -/
inductive OpResult (α : Type) where
  | thrown (msg : String)
  | request (r : α)
deriving DecidableEq, Repr

/-- `addCreditCard`: checks the session, then inserts with `user_id`. -/
def addCreditCard (session : Option String) : OpResult DbRequest :=
  match session with
  | none => .thrown "User not authenticated"
  | some uid => .request (.insert "credit_cards" uid)

/-- `getCreditCards`: checks the session, then selects rows scoped to it. -/
def getCreditCards (session : Option String) : OpResult DbRequest :=
  match session with
  | none => .thrown "User not authenticated"
  | some uid => .request (.selectAll "credit_cards" uid)

/-- `getCreditCardById`: checks the session, then selects by id and user. -/
def getCreditCardById (session : Option String) (id : String) :
    OpResult DbRequest :=
  match session with
  | none => .thrown "User not authenticated"
  | some uid => .request (.selectById "credit_cards" id uid)

/-- `updateCreditCard`: issues the update directly — the source performs no
session check. -/
def updateCreditCard (_session : Option String) (id : String) :
    OpResult DbRequest :=
  .request (.update "credit_cards" id)

/-- `deleteCreditCard`: issues the delete directly — no session check. -/
def deleteCreditCard (_session : Option String) (id : String) :
    OpResult DbRequest :=
  .request (.delete "credit_cards" id)

/-- `addPaymentReminder`: checks the session, then inserts with `user_id`. -/
def addPaymentReminder (session : Option String) : OpResult DbRequest :=
  match session with
  | none => .thrown "User not authenticated"
  | some uid => .request (.insert "payment_reminders" uid)

/-- `getPaymentReminders`: checks the session, then selects scoped rows. -/
def getPaymentReminders (session : Option String) : OpResult DbRequest :=
  match session with
  | none => .thrown "User not authenticated"
  | some uid => .request (.selectAll "payment_reminders" uid)

/-- `updatePaymentReminder`: issues the update directly — no session check. -/
def updatePaymentReminder (_session : Option String) (id : String) :
    OpResult DbRequest :=
  .request (.update "payment_reminders" id)

/-- `deletePaymentReminder`: issues the delete directly — no session check. -/
def deletePaymentReminder (_session : Option String) (id : String) :
    OpResult DbRequest :=
  .request (.delete "payment_reminders" id)

/-- `getBillStatements`: checks the session, then selects the statements of
one card scoped to the user. -/
def getBillStatements (session : Option String) (creditCardId : String) :
    OpResult DbRequest :=
  match session with
  | none => .thrown "User not authenticated"
  | some uid => .request (.selectByCard "bill_statements" creditCardId uid)

/-- `getStatementUrl`: creates a one-hour signed URL — no session check. -/
def getStatementUrl (_session : Option String) (filePath : String) :
    OpResult DbRequest :=
  .request (.createSignedUrl filePath 3600)

/-! ## `uploadBillStatement`: the one compensating-action sequence -/

/-- Environment fixing the backend's replies during an upload: the ambient
session, the storage `upload` outcome and the metadata `insert` outcome
(`none` = success, `some e` = the error the backend returns). -/
structure UploadEnv where
  session : Option String
  uploadError : Option String
  insertError : Option String
deriving DecidableEq, Repr

/-- An externally visible step performed by `uploadBillStatement`. -/
inductive UploadAction where
  | storageUpload (path : String)
  | insertRecord (table : String)
  | storageRemove (path : String)
deriving DecidableEq, Repr

/-- `uploadBillStatement` (storage section of the data client): store the
binary at `userId/creditCardId/fileName`, insert the metadata record, and on
insert failure remove the stored binary before re-throwing the insert
error.  `fileName` stands for the source's `Date.now()`-prefixed name.
Returns the trace of performed steps and the overall outcome. -/
def uploadBillStatement (env : UploadEnv) (creditCardId fileName : String) :
    List UploadAction × Except String Unit :=
  match env.session with
  | none => ([], .error "User not authenticated")
  | some uid =>
    let filePath := uid ++ "/" ++ creditCardId ++ "/" ++ fileName
    match env.uploadError with
    | some e => ([.storageUpload filePath], .error e)
    | none =>
      match env.insertError with
      | some e =>
        ([.storageUpload filePath, .insertRecord "bill_statements",
          .storageRemove filePath], .error e)
      | none =>
        ([.storageUpload filePath, .insertRecord "bill_statements"], .ok ())

/-! ## `deleteBillStatement`: multi-step, no compensation -/

/-- Environment fixing the backend's replies during a statement delete:
the `file_path` returned by the lookup (`none` = no matching record) and
the storage `remove` outcome. -/
structure DeleteStmEnv where
  lookupFilePath : Option String
  removeError : Option String
deriving DecidableEq, Repr

/-- An externally visible step performed by `deleteBillStatement`. -/
inductive DeleteStmAction where
  | selectFilePath (statementId : String)
  | storageRemove (path : String)
  | deleteRecord (statementId : String)
deriving DecidableEq, Repr

/-- `deleteBillStatement` (storage section of the data client): look up the
record's `file_path` (no session check precedes this request), throw
`Statement not found` when no record matches, remove the binary, throw the
storage error if removal fails (leaving the metadata record in place), and
only then delete the metadata record. -/
def deleteBillStatement (env : DeleteStmEnv) (statementId : String) :
    List DeleteStmAction × Except String Unit :=
  match env.lookupFilePath with
  | none => ([.selectFilePath statementId], .error "Statement not found")
  | some fp =>
    match env.removeError with
    | some e =>
      ([.selectFilePath statementId, .storageRemove fp], .error e)
    | none =>
      ([.selectFilePath statementId, .storageRemove fp,
        .deleteRecord statementId], .ok ())

/-! ## Local list state after mutations (`CreditCards.tsx`,
`PaymentReminders.tsx`) -/

/-- A credit-card row as rendered by the list page (`CreditCardType`). -/
structure CreditCardRec where
  id : String
  card_name : String
  last_four_digits : String
  card_network : String
  bank_name : String
  last_bill_date : String
  last_due_date : String
  bill_cycle_days : Option Int
  credit_limit : ℚ
  current_balance : ℚ
  available_credit : ℚ
  joining_date : String
  joining_fees : ℚ
  annual_fees : ℚ
  color : String
  card_image : Option String
  user_id : String
  created_at : String
deriving DecidableEq, Repr

/-- `handleDeleteCard` of `CreditCards.tsx`, as a function of the current
list, the `cardToDelete` state and whether the remote delete succeeded.
On success the page filters the card out; on failure (the thrown error is
caught) the list state is not touched. -/
def handleDeleteCard (cards : List CreditCardRec)
    (cardToDelete : Option String) (deleteOk : Bool) : List CreditCardRec :=
  match cardToDelete with
  | none => cards
  | some cid =>
    if deleteOk then cards.filter (fun card => card.id != cid) else cards

/-- A payment-reminder row (`PaymentReminderType`). -/
structure Reminder where
  id : String
  credit_card_id : String
  due_date : String
  amount : ℚ
  is_paid : Bool
  notes : Option String
  user_id : String
  created_at : String
deriving DecidableEq, Repr

/-- `handleToggleStatus` of `PaymentReminders.tsx`, as a function of the
current list, the toggled reminder and whether the remote update succeeded.
On success the page maps over the list, negating `is_paid` on the matching
id; on failure the list state is not touched. -/
def handleToggleStatus (reminders : List Reminder) (target : Reminder)
    (updateOk : Bool) : List Reminder :=
  if updateOk then
    reminders.map (fun r =>
      if r.id == target.id then { r with is_paid := !r.is_paid } else r)
  else reminders

/-! ## Startup configuration check (supabase client initialisation) -/

/-- JS falsiness of an env var: `undefined` and the empty string. -/
def jsFalsyStr (v : Option String) : Bool :=
  match v with
  | none => true
  | some s => s == ""

/-- The initialised supabase client (endpoint URL and public API key). -/
structure SupabaseClient where
  url : String
  anonKey : String
deriving DecidableEq, Repr

/-- Module initialisation of the supabase service: read
`VITE_SUPABASE_URL` and `VITE_SUPABASE_ANON_KEY` and throw
`supabaseUrl is required` when either is missing or empty, otherwise build
the client. -/
def initSupabase (urlEnv keyEnv : Option String) :
    Except String SupabaseClient :=
  if jsFalsyStr urlEnv || jsFalsyStr keyEnv then
    .error "supabaseUrl is required"
  else
    .ok { url := urlEnv.getD "", anonKey := keyEnv.getD "" }

/-! ## The zod validation schemas (`types/schemas.ts`)

Raw inputs carry the text fields as strings, the optional date fields as
`Option String` (`none` = `undefined`), and the `z.coerce.number()` fields
as the already-coerced numeric value (the form's `onChange` handlers convert
the text to a number before the schema runs), so normalisation is the
identity on this representation.  Each zod constraint is one `CardConstraint`;
`creditCardErrors` collects the issues in schema order, tagged with the field
they are attached to. -/

/-- Raw input to `creditCardFormSchema`. -/
structure RawCardInput where
  card_name : String
  last_four_digits : String
  card_network : String
  bank_name : String
  last_bill_date : Option String
  last_due_date : Option String
  credit_limit : ℚ
  current_balance : ℚ
  joining_date : Option String
  expiry_date : Option String
  joining_fees : ℚ
  annual_fees : ℚ
  color : String
deriving DecidableEq, Repr

/-- The regex `^\d\x7b4\x7d-\d\x7b2\x7d-\d\x7b2\x7d$` of the date fields. -/
def isDateFormat (s : String) : Bool :=
  match s.data with
  | [y1, y2, y3, y4, h1, m1, m2, h2, d1, d2] =>
    y1.isDigit && y2.isDigit && y3.isDigit && y4.isDigit && h1 == '-' &&
    m1.isDigit && m2.isDigit && h2 == '-' && d1.isDigit && d2.isDigit
  | _ => false

/-- A date field passes when absent (`optional`), empty (`or(z.literal(''))`)
or matching the date pattern. -/
def dateFieldOk (v : Option String) : Bool :=
  match v with
  | none => true
  | some s => s == "" || isDateFormat s

/-- One zod constraint of `creditCardFormSchema`, in schema order.
`lastFourLen` and `lastFourDigits` are the two chained checks on
`last_four_digits` (`length(4)` and `regex(^\d+$)`). -/
inductive CardConstraint where
  | cardName
  | lastFourLen
  | lastFourDigits
  | cardNetwork
  | bankName
  | lastBillDate
  | lastDueDate
  | creditLimit
  | currentBalance
  | joiningDate
  | expiryDate
  | joiningFees
  | annualFees
  | color
deriving DecidableEq, Repr, Fintype

/-- Whether the input satisfies one constraint of the schema. -/
def constraintOk (i : RawCardInput) : CardConstraint → Bool
  | .cardName => i.card_name.length != 0
  | .lastFourLen => i.last_four_digits.length == 4
  | .lastFourDigits =>
    i.last_four_digits.length != 0 && i.last_four_digits.data.all Char.isDigit
  | .cardNetwork => i.card_network.length != 0
  | .bankName => i.bank_name.length != 0
  | .lastBillDate => dateFieldOk i.last_bill_date
  | .lastDueDate => dateFieldOk i.last_due_date
  | .creditLimit => decide (0 ≤ i.credit_limit)
  | .currentBalance => decide (0 ≤ i.current_balance)
  | .joiningDate => dateFieldOk i.joining_date
  | .expiryDate => dateFieldOk i.expiry_date
  | .joiningFees => decide (0 ≤ i.joining_fees)
  | .annualFees => decide (0 ≤ i.annual_fees)
  | .color => i.color.length != 0

/-- The field a constraint is attached to and its configured message. -/
def constraintError : CardConstraint → String × String
  | .cardName => ("card_name", "Card name is required")
  | .lastFourLen =>
    ("last_four_digits", "Last four digits must be exactly 4 digits")
  | .lastFourDigits =>
    ("last_four_digits", "Last four digits must contain only digits")
  | .cardNetwork => ("card_network", "Card network is required")
  | .bankName => ("bank_name", "Bank name is required")
  | .lastBillDate =>
    ("last_bill_date", "Last bill date must be in YYYY-MM-DD format")
  | .lastDueDate =>
    ("last_due_date", "Last due date must be in YYYY-MM-DD format")
  | .creditLimit => ("credit_limit", "Credit limit must be a positive number")
  | .currentBalance =>
    ("current_balance", "Current balance must be a positive number")
  | .joiningDate =>
    ("joining_date", "Joining date must be in YYYY-MM-DD format")
  | .expiryDate => ("expiry_date", "Expiry date must be in YYYY-MM-DD format")
  | .joiningFees => ("joining_fees", "Joining fees must be a positive number")
  | .annualFees => ("annual_fees", "Annual fees must be a positive number")
  | .color => ("color", "Card color is required")

/-- The constraints in the order the schema declares them. -/
def cardConstraints : List CardConstraint :=
  [.cardName, .lastFourLen, .lastFourDigits, .cardNetwork, .bankName,
   .lastBillDate, .lastDueDate, .creditLimit, .currentBalance,
   .joiningDate, .expiryDate, .joiningFees, .annualFees, .color]

/-- All issues zod reports for an input: one `(field, message)` pair per
violated constraint, in schema order. -/
def creditCardErrors (i : RawCardInput) : List (String × String) :=
  (cardConstraints.filter (fun c => !constraintOk i c)).map constraintError

/-- `creditCardFormSchema.safeParse`: the normalised record on success
(numeric coercion is pre-applied in this representation, so the record is
returned unchanged), the issue list on failure. -/
def creditCardFormSchema (i : RawCardInput) :
    Except (List (String × String)) RawCardInput :=
  if creditCardErrors i = [] then .ok i else .error (creditCardErrors i)

/-- Raw input to `reminderFormSchema`; `due_date` is `none` when the form
never received a date (`z.date()` then reports a required-type issue),
`is_paid` is `none` when absent (zod defaults it to `false`). -/
structure RawReminderInput where
  credit_card_id : String
  due_date : Option CalDate
  amount : ℚ
  notes : Option String
  is_paid : Option Bool
deriving DecidableEq, Repr

/-- `z.infer<typeof reminderFormSchema>`. -/
structure ReminderFormValues where
  credit_card_id : String
  due_date : CalDate
  amount : ℚ
  notes : Option String
  is_paid : Bool
deriving DecidableEq, Repr

/-- The issues zod reports for a reminder input: non-empty card id, a
present date, and `min(0.01)` on the amount. -/
def reminderErrors (i : RawReminderInput) : List (String × String) :=
  (if i.credit_card_id.length = 0 then
    [("credit_card_id", "Please select a credit card")] else []) ++
  (match i.due_date with
   | none => [("due_date", "Required")]
   | some _ => []) ++
  (if i.amount < 1 / 100 then
    [("amount", "Amount must be greater than 0")] else [])

/-- `reminderFormSchema.safeParse`. -/
def reminderFormSchema (i : RawReminderInput) :
    Except (List (String × String)) ReminderFormValues :=
  match i.due_date with
  | none => .error (reminderErrors i)
  | some d =>
    if reminderErrors i = [] then
      .ok { credit_card_id := i.credit_card_id, due_date := d,
            amount := i.amount, notes := i.notes,
            is_paid := i.is_paid.getD false }
    else .error (reminderErrors i)

/-! ## Sample inputs used by witnesses and concrete theorems -/

/-- A fully valid card submission (both bill dates present, 20-day cycle). -/
def cycleValues : CardFormValues :=
  { card_name := "My Visa Card", last_four_digits := "1234",
    card_network := "visa", bank_name := "HDFC Bank",
    last_bill_date := some ⟨2024, 1, 5⟩, last_due_date := some ⟨2024, 1, 25⟩,
    credit_limit := 50000, current_balance := 12000,
    joining_date := none, expiry_date := none,
    joining_fees := 0, annual_fees := 0, color := "#1e293b" }

/-- An edit-form submission with the bill date cleared. -/
def editValuesNoBill : CardFormValues :=
  { cycleValues with last_bill_date := none }

/-- An over-limit submission: balance exceeds the limit. -/
def overLimitValues : CardFormValues :=
  { cycleValues with credit_limit := 100, current_balance := 250 }

/-- A raw card input satisfying every schema constraint. -/
def sampleValidCard : RawCardInput :=
  { card_name := "My Visa Card", last_four_digits := "1234",
    card_network := "visa", bank_name := "HDFC Bank",
    last_bill_date := some "2024-01-05", last_due_date := some "2024-01-25",
    credit_limit := 50000, current_balance := 12000,
    joining_date := some "", expiry_date := none,
    joining_fees := 0, annual_fees := 999, color := "#1e293b" }

/-- The same input with a three-digit `last_four_digits`: it violates the
length constraint and nothing else. -/
def sampleShortDigitsCard : RawCardInput :=
  { sampleValidCard with last_four_digits := "123" }

/-- A reminder input that is valid except for its zero amount. -/
def reminderInputZero : RawReminderInput :=
  { credit_card_id := "card-1", due_date := some ⟨2024, 5, 1⟩,
    amount := 0, notes := none, is_paid := none }

/-- The same reminder input with amount `0.01`. -/
def reminderInputCent : RawReminderInput :=
  { reminderInputZero with amount := 1 / 100 }

/-- A concrete unpaid reminder. -/
def reminderA : Reminder :=
  { id := "r1", credit_card_id := "card-1", due_date := "2024-05-01",
    amount := 1200, is_paid := false, notes := none,
    user_id := "u1", created_at := "2024-04-01" }

/-- A second reminder with a different id. -/
def reminderB : Reminder :=
  { id := "r2", credit_card_id := "card-1", due_date := "2024-06-01",
    amount := 800, is_paid := true, notes := some "june bill",
    user_id := "u1", created_at := "2024-04-02" }

/-! ## Helper lemmas -/

/-- Sanity: the epoch-day number of 1970-01-01 is 0. -/
example : daysFromCivil ⟨1970, 1, 1⟩ = 0 := by decide

/-- `Math.round` is the identity on whole numbers. -/
theorem jsRound_intCast (n : Int) : jsRound (n : ℚ) = n := by
  unfold jsRound
  rw [add_comm, Int.floor_add_int]
  norm_num

/-- The millisecond round-trip of the `onSubmit` handlers is exact: the
computed cycle length is the difference of the two dates' day numbers. -/
theorem billCycleDaysCalc_eq (b d : CalDate) :
    billCycleDaysCalc b d = daysFromCivil d - daysFromCivil b := by
  unfold billCycleDaysCalc jsDateMs
  have hfac : (86400000 * daysFromCivil d - 86400000 * daysFromCivil b : Int)
      = 86400000 * (daysFromCivil d - daysFromCivil b) := by ring
  rw [hfac]
  have hdiv : ((86400000 * (daysFromCivil d - daysFromCivil b) : Int) : ℚ)
      / 86400000 = ((daysFromCivil d - daysFromCivil b : Int) : ℚ) := by
    push_cast
    rw [mul_div_cancel_left₀]
    norm_num
  rw [hdiv, jsRound_intCast]

/-- When every constraint holds, the schema reports no issues. -/
theorem creditCardErrors_nil (i : RawCardInput)
    (h : ∀ c, constraintOk i c = true) : creditCardErrors i = [] := by
  simp [creditCardErrors, cardConstraints, h]

/-- When exactly one constraint fails, the issue list is that constraint's
`(field, message)` pair alone. -/
theorem creditCardErrors_single (i : RawCardInput) (c : CardConstraint)
    (hc : constraintOk i c = false)
    (h : ∀ c', c' ≠ c → constraintOk i c' = true) :
    creditCardErrors i = [constraintError c] := by
  have hpred : (fun x => !constraintOk i x) = (fun x => decide (x = c)) := by
    funext x
    by_cases hx : x = c
    · subst hx
      simp [hc]
    · rw [h x hx, decide_eq_false hx]
      rfl
  unfold creditCardErrors
  rw [hpred]
  cases c <;> rfl

/-! ## The claims -/

/-- C1 (counterexample): the claim says `bill_cycle_days` is stored as null
whenever either date is absent, for both forms; but the edit form, submitted
with the bill date cleared and a previously stored cycle of 20 days, stores
20, not null. -/
theorem edit_bill_cycle_stale :
    (editCreditCardOnSubmit (some 20) editValuesNoBill).bill_cycle_days
      = some 20 ∧
    (editCreditCardOnSubmit (some 20) editValuesNoBill).bill_cycle_days
      ≠ none := by
  constructor
  · rfl
  · decide

/-- C1 (amended): when both dates are present, both forms store the whole-day
difference (due − bill) of the two dates' epoch-day numbers — negative when
the due date precedes the bill date; when either date is absent or empty the
create form stores null while the edit form retains the card's previously
stored `bill_cycle_days`. -/
theorem bill_cycle_days_spec (prev : Option Int) (v : CardFormValues) :
    (∀ b d, v.last_bill_date = some b → v.last_due_date = some d →
      (addCreditCardOnSubmit v).bill_cycle_days
        = some (daysFromCivil d - daysFromCivil b) ∧
      (editCreditCardOnSubmit prev v).bill_cycle_days
        = some (daysFromCivil d - daysFromCivil b)) ∧
    ((v.last_bill_date = none ∨ v.last_due_date = none) →
      (addCreditCardOnSubmit v).bill_cycle_days = none ∧
      (editCreditCardOnSubmit prev v).bill_cycle_days = prev) := by
  constructor
  · intro b d hb hd
    simp [addCreditCardOnSubmit, editCreditCardOnSubmit, hb, hd,
      billCycleDaysCalc_eq]
  · rintro (h | h)
    · cases hd : v.last_due_date <;>
        simp [addCreditCardOnSubmit, editCreditCardOnSubmit, h, hd]
    · cases hb : v.last_bill_date <;>
        simp [addCreditCardOnSubmit, editCreditCardOnSubmit, h, hb]

/-- C1 (witness): on the 2024-01-05 → 2024-01-25 example both forms store a
20-day cycle. -/
theorem bill_cycle_days_spec_witness :
    (addCreditCardOnSubmit cycleValues).bill_cycle_days = some 20 ∧
    (editCreditCardOnSubmit (some 7) cycleValues).bill_cycle_days
      = some 20 := by
  have h := (bill_cycle_days_spec (some 7) cycleValues).1
    ⟨2024, 1, 5⟩ ⟨2024, 1, 25⟩ rfl rfl
  have hd : daysFromCivil ⟨2024, 1, 25⟩ - daysFromCivil ⟨2024, 1, 5⟩
      = 20 := by decide
  exact ⟨h.1.trans (by rw [hd]), h.2.trans (by rw [hd])⟩

/-- C2 (counterexample): the claim says every data operation throws an
unauthenticated error before issuing a request when no session exists; but
`updateCreditCard` performs no session check and issues its update request
even with no session. -/
theorem update_without_auth_check :
    updateCreditCard none "card-1"
      = .request (.update "credit_cards" "card-1") := rfl

/-- C2 (amended): with no session, the insert, list, get-by-id and upload
operations throw `User not authenticated` before issuing any request, while
the update, delete and signed-URL operations never consult the session and
issue their backend request unconditionally (`deleteBillStatement` always
starts with its lookup request). -/
theorem auth_gating_by_operation (id path ccid fn : String)
    (e1 e2 lk re : Option String) :
    addCreditCard none = .thrown "User not authenticated" ∧
    getCreditCards none = .thrown "User not authenticated" ∧
    getCreditCardById none id = .thrown "User not authenticated" ∧
    addPaymentReminder none = .thrown "User not authenticated" ∧
    getPaymentReminders none = .thrown "User not authenticated" ∧
    getBillStatements none ccid = .thrown "User not authenticated" ∧
    uploadBillStatement
        { session := none, uploadError := e1, insertError := e2 } ccid fn
      = ([], .error "User not authenticated") ∧
    updateCreditCard none id = .request (.update "credit_cards" id) ∧
    deleteCreditCard none id = .request (.delete "credit_cards" id) ∧
    updatePaymentReminder none id
      = .request (.update "payment_reminders" id) ∧
    deletePaymentReminder none id
      = .request (.delete "payment_reminders" id) ∧
    getStatementUrl none path = .request (.createSignedUrl path 3600) ∧
    (deleteBillStatement
        { lookupFilePath := lk, removeError := re } id).1.head?
      = some (.selectFilePath id) := by
  refine ⟨rfl, rfl, rfl, rfl, rfl, rfl, rfl, rfl, rfl, rfl, rfl, rfl, ?_⟩
  cases lk with
  | none => rfl
  | some fp => cases re <;> rfl

/-- C3: if the metadata insert fails after the binary was stored, the stored
binary is removed and the original insert error is re-raised; if the binary
store itself fails, no metadata insert is attempted. -/
theorem upload_statement_compensation (uid ccid fn e : String)
    (e2 : Option String) :
    uploadBillStatement
        { session := some uid, uploadError := none, insertError := some e }
        ccid fn
      = ([.storageUpload (uid ++ "/" ++ ccid ++ "/" ++ fn),
          .insertRecord "bill_statements",
          .storageRemove (uid ++ "/" ++ ccid ++ "/" ++ fn)], .error e) ∧
    uploadBillStatement
        { session := some uid, uploadError := some e, insertError := e2 }
        ccid fn
      = ([.storageUpload (uid ++ "/" ++ ccid ++ "/" ++ fn)], .error e) :=
  ⟨rfl, rfl⟩

/-- C4: for every form submission (whose schema admits only non-negative
limit and balance), the stored `available_credit` is exactly
`credit_limit − current_balance` on both forms, and when the balance
exceeds the limit the stored value is negative — the write still happens,
nothing clamps or rejects it. -/
theorem available_credit_unclamped (v : CardFormValues) (prev : Option Int)
    (_h1 : 0 ≤ v.credit_limit) (_h2 : 0 ≤ v.current_balance) :
    (addCreditCardOnSubmit v).available_credit
      = v.credit_limit - v.current_balance ∧
    (editCreditCardOnSubmit prev v).available_credit
      = v.credit_limit - v.current_balance ∧
    (v.credit_limit < v.current_balance →
      (addCreditCardOnSubmit v).available_credit < 0) := by
  refine ⟨rfl, rfl, ?_⟩
  intro h
  show v.credit_limit - v.current_balance < 0
  linarith

/-- C4 (witness): limit 100, balance 250 — stored available credit is −150. -/
theorem available_credit_unclamped_witness :
    (addCreditCardOnSubmit overLimitValues).available_credit = -150 ∧
    (addCreditCardOnSubmit overLimitValues).available_credit < 0 := by
  have h := available_credit_unclamped overLimitValues none
    (by decide) (by decide)
  exact ⟨h.1.trans (by norm_num [overLimitValues, cycleValues]),
    h.2.2 (by decide)⟩

/-- C5: an input satisfying every constraint is accepted (and returned in
normalised form), and an input violating exactly one constraint is rejected
with the single error message attached to that constraint's field. -/
theorem creditCardFormSchema_correct (i : RawCardInput) :
    ((∀ c, constraintOk i c = true) → creditCardFormSchema i = .ok i) ∧
    (∀ c, constraintOk i c = false →
      (∀ c', c' ≠ c → constraintOk i c' = true) →
      creditCardFormSchema i = .error [constraintError c]) := by
  constructor
  · intro h
    simp [creditCardFormSchema, creditCardErrors_nil i h]
  · intro c hc h
    simp [creditCardFormSchema, creditCardErrors_single i c hc h]

/-- C5 (witness): a concrete valid card is accepted; the same card with a
three-digit `last_four_digits` is rejected with the length message on that
field. -/
theorem creditCardFormSchema_correct_witness :
    creditCardFormSchema sampleValidCard = .ok sampleValidCard ∧
    creditCardFormSchema sampleShortDigitsCard
      = .error [("last_four_digits",
                 "Last four digits must be exactly 4 digits")] := by
  constructor
  · exact (creditCardFormSchema_correct sampleValidCard).1 (by decide)
  · exact (creditCardFormSchema_correct sampleShortDigitsCard).2
      .lastFourLen (by decide) (by decide)

/-- C6: the reminder schema rejects amount 0 with the amount-field message
and accepts the same input with amount 0.01. -/
theorem reminder_amount_minimum :
    reminderFormSchema reminderInputZero
      = .error [("amount", "Amount must be greater than 0")] ∧
    reminderFormSchema reminderInputCent
      = .ok { credit_card_id := "card-1", due_date := ⟨2024, 5, 1⟩,
              amount := 1 / 100, notes := none, is_paid := false } := by
  have hq0 : ((0 : ℚ) < 1 / 100) = True := eq_true (by norm_num)
  have hqc : ((1 / 100 : ℚ) < 1 / 100) = False := eq_false (by norm_num)
  have herrz : reminderErrors reminderInputZero
      = [("amount", "Amount must be greater than 0")] := by
    simp [reminderErrors, reminderInputZero, hq0]
    decide
  have herrc : reminderErrors reminderInputCent = [] := by
    simp [reminderErrors, reminderInputCent, reminderInputZero, hqc]
    decide
  have hdz : reminderInputZero.due_date = some ⟨2024, 5, 1⟩ := rfl
  have hdc : reminderInputCent.due_date = some ⟨2024, 5, 1⟩ := rfl
  have hcc : reminderInputCent.credit_card_id = "card-1" := rfl
  have ha : reminderInputCent.amount = 1 / 100 := rfl
  have hn : reminderInputCent.notes = none := rfl
  have hip : reminderInputCent.is_paid = none := rfl
  constructor
  · simp [reminderFormSchema, hdz, herrz]
  · simp [reminderFormSchema, hdc, herrc, hcc, ha, hn, hip]

/-- C7: after a successful toggle, the reminder at each position either has
the target's id — then only its `is_paid` flag is negated, every other field
kept — or a different id — then it is unchanged; the list length is
preserved. -/
theorem toggle_status_frame (rs : List Reminder) (t : Reminder) (i : Nat)
    (h : i < rs.length) :
    (handleToggleStatus rs t true).length = rs.length ∧
    (rs[i].id = t.id →
      (handleToggleStatus rs t true)[i]?
        = some { rs[i] with is_paid := !rs[i].is_paid }) ∧
    (rs[i].id ≠ t.id → (handleToggleStatus rs t true)[i]? = some rs[i]) := by
  refine ⟨by simp [handleToggleStatus], ?_, ?_⟩
  · intro hid
    simp [handleToggleStatus, List.getElem?_map, List.getElem?_eq_getElem h,
      hid]
  · intro hid
    simp [handleToggleStatus, List.getElem?_map, List.getElem?_eq_getElem h,
      hid]

/-- C7 (witness): toggling `reminderA` in a two-reminder list flips its paid
flag in place and leaves `reminderB` untouched. -/
theorem toggle_status_frame_witness :
    (handleToggleStatus [reminderA, reminderB] reminderA true)[0]?
      = some { reminderA with is_paid := !reminderA.is_paid } ∧
    (handleToggleStatus [reminderA, reminderB] reminderA true)[1]?
      = some reminderB := by
  constructor
  · exact (toggle_status_frame [reminderA, reminderB] reminderA 0
      (by decide)).2.1 rfl
  · exact (toggle_status_frame [reminderA, reminderB] reminderA 1
      (by decide)).2.2 (by decide)

/-- C8: on a success response the deleted card's id is gone from the local
list and every card with a different id is retained; on failure the list is
exactly what it was. -/
theorem delete_card_local_list (cards : List CreditCardRec) (cid : String) :
    (∀ c, c ∈ handleDeleteCard cards (some cid) true
      ↔ c ∈ cards ∧ c.id ≠ cid) ∧
    handleDeleteCard cards (some cid) false = cards := by
  constructor
  · intro c
    simp [handleDeleteCard, List.mem_filter]
  · rfl

/-- C9: if either required startup setting is absent (or empty, which the
source's falsiness check treats identically), initialisation throws instead
of building the client. -/
theorem init_requires_config (url key : Option String)
    (h : url = none ∨ url = some "" ∨ key = none ∨ key = some "") :
    initSupabase url key = .error "supabaseUrl is required" := by
  rcases h with h | h | h | h <;> subst h <;> simp [initSupabase, jsFalsyStr]

/-- C9 (witness): a present API key cannot save a missing endpoint URL. -/
theorem init_requires_config_witness :
    initSupabase none (some "anon-key") = .error "supabaseUrl is required" :=
  init_requires_config none (some "anon-key") (Or.inl rfl)

/-- C10: `deleteBillStatement` throws `Statement not found` when the lookup
returns no record; otherwise it removes the binary first, and if that
removal fails it throws with no further action — the metadata record is
never touched (no compensation); only after a successful removal does it
issue the record delete. -/
theorem delete_statement_no_compensation (sid fp e : String)
    (re : Option String) :
    deleteBillStatement { lookupFilePath := none, removeError := re } sid
      = ([.selectFilePath sid], .error "Statement not found") ∧
    deleteBillStatement
        { lookupFilePath := some fp, removeError := some e } sid
      = ([.selectFilePath sid, .storageRemove fp], .error e) ∧
    deleteBillStatement
        { lookupFilePath := some fp, removeError := none } sid
      = ([.selectFilePath sid, .storageRemove fp, .deleteRecord sid],
         .ok ()) :=
  ⟨rfl, rfl, rfl⟩

end CCMonitor
